import Mathlib

/-!
Verification of `src/datasets/inspect.py` — the read-only inspection layer
of the `datasets` library. The file is a thin orchestration layer over
external collaborators (hub catalog client, module-resolution factory,
builder loader, streaming adapter, streaming download manager). We embed it
shallowly: every collaborator is an abstract field of an `Env` record whose
fallible operations return `Except PyExc`; Python exceptions are values of
an inductive carrying a class (with the Python subclass relation), a
message and an optional cause; the mutable `DownloadConfig` objects are
modelled as a store (list) of values indexed by natural-number references,
so that in-place mutation and `copy()` are explicit.
-/

/-- Python exception classes relevant to this module, together with the
builtin classes they inherit from. `other n` stands for any further
exception class (network errors, import errors, ...). -/
inductive ExcClass where
  | exception
  | valueError
  | attributeError
  | splitsNotFoundError
  | other (n : Nat)
deriving DecidableEq, Repr

/-- Python's subclass relation restricted to the classes above:
`SplitsNotFoundError` is declared in the source as
`class SplitsNotFoundError(ValueError)`, `ValueError` and
`AttributeError` are builtins deriving from `Exception`, and every
class is a subclass of itself and of `Exception`. -/
def ExcClass.isSubclassOf : ExcClass → ExcClass → Bool
  | _, .exception => true
  | .valueError, .valueError => true
  | .attributeError, .attributeError => true
  | .splitsNotFoundError, .valueError => true
  | .splitsNotFoundError, .splitsNotFoundError => true
  | .other n, .other m => n == m
  | _, _ => false

/-- A Python exception value: its class, its message, and the exception
chained as its `__cause__` (set by `raise ... from err`), if any. -/
inductive PyExc where
  | mk (cls : ExcClass) (msg : String) (cause : Option PyExc)

def PyExc.cls : PyExc → ExcClass
  | .mk c _ _ => c

def PyExc.msg : PyExc → String
  | .mk _ m _ => m

def PyExc.cause : PyExc → Option PyExc
  | .mk _ _ c => c

/-- An `except C:` handler catches exception `e` iff the class of `e` is a
subclass of `C`. -/
def catches (handler : ExcClass) (e : PyExc) : Bool :=
  e.cls.isSubclassOf handler

/-- Stand-in for `Union[bool, str]` auth tokens. -/
abbrev AuthToken := Sum Bool String

/-- Opaque stand-ins for pass-through parameter types owned by other
modules: the revision (`Union[str, Version]`), the data-files
specification, the download mode enum, and the open-ended
`**download_kwargs` / `**config_kwargs` overrides. -/
abbrev Revision := String

abbrev DataFiles := String

abbrev DownloadMode := String

abbrev DownloadKwargs := List (String × String)

abbrev ConfigKwargs := List (String × String)

/-- Modelled from the spec: `DownloadConfig` itself lives in
`datasets/download/download_config.py`, outside this repository slice.
Per the spec it is a record of download parameters supporting a `copy()`
operation and a mutable `use_auth_token` field; `rest` stands for all its
other fields, which this layer never touches. -/
structure DownloadConfig where
  use_auth_token : Option AuthToken := none
  rest : List (String × String) := []
deriving DecidableEq, Repr

/-- The heap of live `DownloadConfig` objects: Python variables hold
references (indices) into it, `copy()` appends a fresh object, and
attribute assignment overwrites in place. -/
abbrev DCStore := List DownloadConfig

/-- Python `dict.get(k, dflt)` on an association list. -/
def pyDictGet (d : List (String × String)) (k dflt : String) : String :=
  match d.find? (fun p => p.1 == k) with
  | some p => p.2
  | none => dflt

/-- One step of Python dict construction: inserting key `k` keeps the
position of an existing `k` (overwriting its value) and otherwise appends
at the end, matching CPython's insertion-order semantics. -/
def pyDictInsert {α : Type} (d : List (String × α)) (k : String) (v : α) :
    List (String × α) :=
  if d.any (fun p => p.1 == k) then
    d.map (fun p => if p.1 == k then (k, v) else p)
  else
    d ++ [(k, v)]

/-- A Python dict comprehension over a list of key/value pairs. -/
def pyDict {α : Type} (l : List (String × α)) : List (String × α) :=
  l.foldl (fun d kv => pyDictInsert d kv.1 kv.2) []

/-- `list(d.keys())` on an association-list dict. -/
def pyDictKeys {α : Type} (d : List (String × α)) : List String :=
  d.map (fun p => p.1)

/-- An entry of the Hub catalog (`huggingface_hub` dataset/metric info):
an identifier plus further detail fields this layer never reads. -/
structure CatalogEntry where
  id : String
  details : List (String × String) := []
deriving DecidableEq, Repr

/-- The value of one split in a computed splits mapping:
`{"name": ..., "dataset_name": ...}`. -/
structure SplitMeta where
  name : String
  dataset_name : String
deriving DecidableEq, Repr

/-- The `DatasetInfo` metadata record as seen by this layer: a possibly
unset `splits` mapping plus further metadata fields (`descr` stands for
all of them) that this layer passes through untouched. -/
structure DatasetInfo where
  splits : Option (List (String × SplitMeta)) := none
  descr : String := ""
deriving DecidableEq, Repr

/-- A split generator, as produced by a builder's `_split_generators`:
this layer only reads its `name`. -/
structure SplitGenerator where
  name : String
deriving DecidableEq, Repr

/-- A builder configuration object; this layer only enumerates the keys of
`builder_configs`, never the objects, so a name field suffices. -/
structure BuilderConfig where
  name : String
deriving DecidableEq, Repr

/-- A builder class as returned by the main-class importer: its
`builder_configs` ordered mapping from configuration name to
configuration object. -/
structure BuilderCls where
  builder_configs : List (String × BuilderConfig)
deriving DecidableEq, Repr

/-- A dataset module reference returned by the resolution factory:
a module path and the builder-construction keyword arguments. -/
structure DatasetModule where
  module_path : String
  builder_kwargs : List (String × String)
deriving DecidableEq, Repr

/-- A dataset builder: this layer reads its `info` and `base_path` and
calls its `_split_generators` (modelled as an `Env` operation). -/
structure Builder where
  info : DatasetInfo
  base_path : String
deriving DecidableEq, Repr

/-- A streaming download manager, constructed from a base path and a
download configuration and handed to `_split_generators`. -/
structure StreamingDownloadManager where
  base_path : String
  download_config : DownloadConfig
deriving DecidableEq, Repr

/-- The external collaborators of `inspect.py`, one field per call the
module makes into another module. Fallible calls return `Except PyExc`;
an `Except.error e` models the Python call raising `e`. -/
structure Env where
  hub_list_datasets : Bool → List CatalogEntry
  hub_list_metrics : List CatalogEntry
  dataset_module_factory :
    String → Option Revision → Option DownloadConfig → Option DownloadMode →
    Option String → Option String → Option DataFiles → DownloadKwargs →
    Except PyExc DatasetModule
  metric_module_factory :
    String → Option DownloadConfig → Option String → DownloadKwargs →
    Except PyExc DatasetModule
  import_main_class : String → Except PyExc BuilderCls
  load_dataset_builder :
    String → Option String → Option DataFiles → Option DownloadConfig →
    Option DownloadMode → Option Revision → Option AuthToken → ConfigKwargs →
    Except PyExc Builder
  extend_dataset_builder_for_streaming :
    Builder → Option AuthToken → Except PyExc Builder
  mk_streaming_download_manager :
    String → DownloadConfig → Except PyExc StreamingDownloadManager
  split_generators :
    Builder → StreamingDownloadManager → Except PyExc (List SplitGenerator)

/-- The result of `list_datasets` / `list_metrics`: bare identifier
strings when `with_details` is false, full records otherwise. -/
inductive CatalogResult where
  | ids (l : List String)
  | records (l : List CatalogEntry)
deriving DecidableEq, Repr

/-- `list_datasets(with_community_datasets=True, with_details=False)`:
fetch the catalog, drop identifiers containing "/" when community
datasets are excluded, project to bare identifiers unless details are
requested. -/
def list_datasets (env : Env) (with_community_datasets : Bool := true)
    (with_details : Bool := false) : CatalogResult :=
  let datasets := env.hub_list_datasets with_details
  let datasets :=
    if !with_community_datasets then
      datasets.filter (fun dataset => !(dataset.id.data.contains '/'))
    else datasets
  if !with_details then CatalogResult.ids (datasets.map (fun dataset => dataset.id))
  else CatalogResult.records datasets

/-- `list_metrics(with_community_metrics=True, with_details=False)`,
analogous to `list_datasets` over the metrics catalog. -/
def list_metrics (env : Env) (with_community_metrics : Bool := true)
    (with_details : Bool := false) : CatalogResult :=
  let metrics := env.hub_list_metrics
  let metrics :=
    if !with_community_metrics then
      metrics.filter (fun metric => !(metric.id.data.contains '/'))
    else metrics
  if !with_details then CatalogResult.ids (metrics.map (fun metric => metric.id))
  else CatalogResult.records metrics

/-- `inspect_dataset(path, local_path, download_config, **download_kwargs)`:
returns no value (`Unit`); the second component is the list of printed
messages. The factory is invoked with `force_local_path=local_path`; on
factory failure the exception propagates and nothing is printed. -/
def inspect_dataset (env : Env) (path local_path : String)
    (download_config : Option DownloadConfig := none)
    (download_kwargs : DownloadKwargs := []) :
    Except PyExc Unit × List String :=
  match env.dataset_module_factory path none download_config none
      (some local_path) none none download_kwargs with
  | .error e => (.error e, [])
  | .ok dataset_module =>
    let mp := dataset_module.module_path
    (.ok (),
      [s!"The processing script for dataset {path} can be inspected at {local_path}. The main class is in {mp}. You can modify this processing script and use it with `datasets.load_dataset({local_path})`."])

/-- `inspect_metric(path, local_path, download_config, **download_kwargs)`,
analogous to `inspect_dataset` via the metric module factory. -/
def inspect_metric (env : Env) (path local_path : String)
    (download_config : Option DownloadConfig := none)
    (download_kwargs : DownloadKwargs := []) :
    Except PyExc Unit × List String :=
  match env.metric_module_factory path download_config (some local_path)
      download_kwargs with
  | .error e => (.error e, [])
  | .ok metric_module =>
    let mp := metric_module.module_path
    (.ok (),
      [s!"The processing scripts for metric {path} can be inspected at {local_path}. The main class is in {mp}. You can modify this processing scripts and use it with `datasets.load_metric({local_path})`."])

/-- `get_dataset_config_names(...)`: resolve the module, import the main
builder class, return `list(builder_cls.builder_configs.keys()) or
[dataset_module.builder_kwargs.get("config_name", "default")]`. -/
def get_dataset_config_names (env : Env) (path : String)
    (revision : Option Revision := none)
    (download_config : Option DownloadConfig := none)
    (download_mode : Option DownloadMode := none)
    (force_local_path : Option String := none)
    (dynamic_modules_path : Option String := none)
    (data_files : Option DataFiles := none)
    (download_kwargs : DownloadKwargs := []) :
    Except PyExc (List String) :=
  match env.dataset_module_factory path revision download_config download_mode
      force_local_path dynamic_modules_path data_files download_kwargs with
  | .error e => .error e
  | .ok dataset_module =>
    match env.import_main_class dataset_module.module_path with
    | .error e => .error e
    | .ok builder_cls =>
      let keys := pyDictKeys builder_cls.builder_configs
      .ok (if keys.isEmpty then
          [pyDictGet dataset_module.builder_kwargs "config_name" "default"]
        else keys)

/-- The download configuration prepared for split discovery in
`get_dataset_config_info`: a copy of the caller's configuration value (or
a freshly constructed default when the caller passed none), with
`use_auth_token` overlaid when one was given. -/
def splitDiscoveryConfig (dc_val : Option DownloadConfig)
    (use_auth_token : Option AuthToken) : DownloadConfig :=
  let copied := dc_val.getD {}
  match use_auth_token with
  | some tok => { copied with use_auth_token := some tok }
  | none => copied

/-- `get_dataset_config_info(...)`. The caller's `DownloadConfig` argument
is a reference (`Option Nat`) into `store`; the function returns the
updated store next to its result. Mirrors the source: load the builder,
extend it for streaming, and if `info.splits is None` compute the splits
inside a `try` whose failures are re-raised as `SplitsNotFoundError` with
the original exception as cause. -/
def get_dataset_config_info (env : Env) (store : DCStore) (path : String)
    (config_name : Option String := none)
    (data_files : Option DataFiles := none)
    (download_config : Option Nat := none)
    (download_mode : Option DownloadMode := none)
    (revision : Option Revision := none)
    (use_auth_token : Option AuthToken := none)
    (config_kwargs : ConfigKwargs := []) :
    DCStore × Except PyExc DatasetInfo :=
  let dc_val : Option DownloadConfig := download_config.bind store.get?
  match env.load_dataset_builder path config_name data_files dc_val
      download_mode revision use_auth_token config_kwargs with
  | .error e => (store, .error e)
  | .ok builder0 =>
    match env.extend_dataset_builder_for_streaming builder0 use_auth_token with
    | .error e => (store, .error e)
    | .ok builder =>
      let info := builder.info
      match info.splits with
      | some _ => (store, .ok info)
      | none =>
        -- download_config = download_config.copy() if download_config else DownloadConfig()
        -- if use_auth_token is not None: download_config.use_auth_token = use_auth_token
        let copied : DownloadConfig := splitDiscoveryConfig dc_val use_auth_token
        let store' := store ++ [copied]
        match env.mk_streaming_download_manager builder.base_path copied with
        | .error err =>
          (store', .error (.mk .splitsNotFoundError
            "The split names could not be parsed from the dataset config." (some err)))
        | .ok dl_manager =>
          match env.split_generators builder dl_manager with
          | .error err =>
            (store', .error (.mk .splitsNotFoundError
              "The split names could not be parsed from the dataset config." (some err)))
          | .ok gens =>
            (store', .ok { info with splits := some (pyDict (gens.map
                (fun split_generator => (split_generator.name,
                  ({ name := split_generator.name,
                     dataset_name := path } : SplitMeta))))) })

/-- The dict comprehension of `get_dataset_infos`: evaluate
`get_dataset_config_info` for each configuration name in order, threading
the store; the first exception aborts the whole comprehension. -/
def get_dataset_infos_go (env : Env) (path : String)
    (data_files : Option DataFiles) (download_config : Option Nat)
    (download_mode : Option DownloadMode) (revision : Option Revision)
    (use_auth_token : Option AuthToken) (config_kwargs : ConfigKwargs) :
    DCStore → List String → List (String × DatasetInfo) →
    DCStore × Except PyExc (List (String × DatasetInfo))
  | store, [], acc => (store, .ok acc)
  | store, config_name :: rest, acc =>
    match get_dataset_config_info env store path (some config_name) data_files
        download_config download_mode revision use_auth_token config_kwargs with
    | (store', .error e) => (store', .error e)
    | (store', .ok info) =>
      get_dataset_infos_go env path data_files download_config download_mode
        revision use_auth_token config_kwargs store' rest
        (pyDictInsert acc config_name info)

/-- `get_dataset_infos(...)`: enumerate the configuration names (passing
`path`, `revision`, `download_config`, `download_mode`, `data_files`,
leaving the remaining factory parameters at their defaults), then map
each name to its `get_dataset_config_info` result. -/
def get_dataset_infos (env : Env) (store : DCStore) (path : String)
    (data_files : Option DataFiles := none)
    (download_config : Option Nat := none)
    (download_mode : Option DownloadMode := none)
    (revision : Option Revision := none)
    (use_auth_token : Option AuthToken := none)
    (config_kwargs : ConfigKwargs := []) :
    DCStore × Except PyExc (List (String × DatasetInfo)) :=
  match get_dataset_config_names env path revision
      (download_config.bind store.get?) download_mode none none data_files [] with
  | .error e => (store, .error e)
  | .ok config_names =>
    get_dataset_infos_go env path data_files download_config download_mode
      revision use_auth_token config_kwargs store config_names []

/-- `get_dataset_split_names(...)`: obtain the info object from
`get_dataset_config_info` and return `list(info.splits.keys())` (reading
`.keys()` on an unset `splits` would raise `AttributeError`). -/
def get_dataset_split_names (env : Env) (store : DCStore) (path : String)
    (config_name : Option String := none)
    (data_files : Option DataFiles := none)
    (download_config : Option Nat := none)
    (download_mode : Option DownloadMode := none)
    (revision : Option Revision := none)
    (use_auth_token : Option AuthToken := none)
    (config_kwargs : ConfigKwargs := []) :
    DCStore × Except PyExc (List String) :=
  match get_dataset_config_info env store path config_name data_files
      download_config download_mode revision use_auth_token config_kwargs with
  | (store', .error e) => (store', .error e)
  | (store', .ok info) =>
    match info.splits with
    | some splits => (store', .ok (pyDictKeys splits))
    | none =>
      (store', .error (.mk .attributeError
        "NoneType object has no attribute keys" none))

/-! ### Concrete sample collaborators, used to exercise the theorems -/

/-- A stand-in network failure raised by a collaborator. -/
def netErr : PyExc := .mk (.other 0) "connection refused" none

/-- A builder whose `info.splits` is unset, forcing split discovery. -/
def builderNoSplits : Builder := ⟨{ splits := none }, "base"⟩

/-- A builder whose `info.splits` is already populated. -/
def builderWithSplits : Builder :=
  ⟨{ splits := some [("train", ⟨"train", "squad"⟩)] }, "base"⟩

/-- A sample environment in which every collaborator succeeds and the
loaded builder has unset splits. -/
def envA : Env where
  hub_list_datasets := fun full =>
    if full then [⟨"squad", [("likes", "3")]⟩, ⟨"user/data", []⟩]
    else [⟨"squad", []⟩, ⟨"user/data", []⟩]
  hub_list_metrics := [⟨"accuracy", []⟩, ⟨"user/metric", []⟩]
  dataset_module_factory := fun _ _ _ _ _ _ _ _ =>
    .ok ⟨"mod_path", [("config_name", "plain")]⟩
  metric_module_factory := fun _ _ _ _ => .ok ⟨"metric_mod_path", []⟩
  import_main_class := fun _ => .ok ⟨[("cola", ⟨"cola"⟩), ("sst2", ⟨"sst2"⟩)]⟩
  load_dataset_builder := fun _ _ _ _ _ _ _ _ => .ok builderNoSplits
  extend_dataset_builder_for_streaming := fun b _ => .ok b
  mk_streaming_download_manager := fun bp dcfg => .ok ⟨bp, dcfg⟩
  split_generators := fun _ _ => .ok [⟨"train"⟩, ⟨"validation"⟩, ⟨"test"⟩]

/-- Like `envA` but the loaded builder already carries splits. -/
def envB : Env :=
  { envA with load_dataset_builder := fun _ _ _ _ _ _ _ _ => .ok builderWithSplits }

/-- Like `envA` but the builder class declares no configurations. -/
def envNoConfigs : Env :=
  { envA with import_main_class := fun _ => .ok ⟨[]⟩ }

/-- Like `envA` but loading the dataset builder raises. -/
def envLoadFail : Env :=
  { envA with load_dataset_builder := fun _ _ _ _ _ _ _ _ => .error netErr }

/-- Like `envA` but the streaming adaptation raises. -/
def envExtendFail : Env :=
  { envA with extend_dataset_builder_for_streaming := fun _ _ => .error netErr }

/-- Like `envA` but constructing the streaming download manager raises. -/
def envMkFail : Env :=
  { envA with mk_streaming_download_manager := fun _ _ => .error netErr }

/-- Like `envA` but enumerating the split generators raises. -/
def envGensFail : Env :=
  { envA with split_generators := fun _ _ => .error netErr }

/-- Like `envA` but the module factory raises. -/
def envFactoryFail : Env :=
  { envA with
      dataset_module_factory := fun _ _ _ _ _ _ _ _ => .error netErr
      metric_module_factory := fun _ _ _ _ => .error netErr }

/-! ### Helper lemmas -/

theorem config_info_snd_ok_splits (env : Env) (store : DCStore) (path : String)
    (config_name : Option String) (data_files : Option DataFiles)
    (download_config : Option Nat) (download_mode : Option DownloadMode)
    (revision : Option Revision) (use_auth_token : Option AuthToken)
    (config_kwargs : ConfigKwargs) (info : DatasetInfo)
    (h : (get_dataset_config_info env store path config_name data_files
      download_config download_mode revision use_auth_token config_kwargs).2
      = .ok info) :
    info.splits.isSome = true := by
  simp only [get_dataset_config_info] at h
  cases hload : env.load_dataset_builder path config_name data_files
      (download_config.bind store.get?) download_mode revision use_auth_token
      config_kwargs with
  | error e => rw [hload] at h; simp at h
  | ok b0 =>
    rw [hload] at h
    dsimp only at h
    cases hext : env.extend_dataset_builder_for_streaming b0 use_auth_token with
    | error e => rw [hext] at h; simp at h
    | ok b =>
      rw [hext] at h
      dsimp only at h
      cases hsp : b.info.splits with
      | some s =>
        rw [hsp] at h
        simp at h
        rw [← h, hsp]
        rfl
      | none =>
        rw [hsp] at h
        dsimp only at h
        cases hmk : env.mk_streaming_download_manager b.base_path
            (splitDiscoveryConfig (download_config.bind store.get?)
              use_auth_token) with
        | error e => rw [hmk] at h; simp at h
        | ok dlm =>
          rw [hmk] at h
          dsimp only at h
          cases hsg : env.split_generators b dlm with
          | error e => rw [hsg] at h; simp at h
          | ok gens =>
            rw [hsg] at h
            simp at h
            rw [← h]
            rfl

section ConfigInfoCases

variable (env : Env) (store : DCStore) (path : String)
  (config_name : Option String) (data_files : Option DataFiles)
  (download_config : Option Nat) (download_mode : Option DownloadMode)
  (revision : Option Revision) (use_auth_token : Option AuthToken)
  (config_kwargs : ConfigKwargs)

theorem config_info_eq_of_load_error (e : PyExc)
    (hload : env.load_dataset_builder path config_name data_files
      (download_config.bind store.get?) download_mode revision use_auth_token
      config_kwargs = .error e) :
    get_dataset_config_info env store path config_name data_files
      download_config download_mode revision use_auth_token config_kwargs
      = (store, .error e) := by
  simp only [get_dataset_config_info]
  rw [hload]

theorem config_info_eq_of_extend_error (b0 : Builder) (e : PyExc)
    (hload : env.load_dataset_builder path config_name data_files
      (download_config.bind store.get?) download_mode revision use_auth_token
      config_kwargs = .ok b0)
    (hext : env.extend_dataset_builder_for_streaming b0 use_auth_token
      = .error e) :
    get_dataset_config_info env store path config_name data_files
      download_config download_mode revision use_auth_token config_kwargs
      = (store, .error e) := by
  simp only [get_dataset_config_info]
  rw [hload]; dsimp only; rw [hext]

theorem config_info_eq_of_splits_present (b0 b : Builder)
    (s : List (String × SplitMeta))
    (hload : env.load_dataset_builder path config_name data_files
      (download_config.bind store.get?) download_mode revision use_auth_token
      config_kwargs = .ok b0)
    (hext : env.extend_dataset_builder_for_streaming b0 use_auth_token
      = .ok b)
    (hsp : b.info.splits = some s) :
    get_dataset_config_info env store path config_name data_files
      download_config download_mode revision use_auth_token config_kwargs
      = (store, .ok b.info) := by
  simp only [get_dataset_config_info]
  rw [hload]; dsimp only; rw [hext]; dsimp only; rw [hsp]

theorem config_info_eq_of_mk_dlm_error (b0 b : Builder) (err : PyExc)
    (hload : env.load_dataset_builder path config_name data_files
      (download_config.bind store.get?) download_mode revision use_auth_token
      config_kwargs = .ok b0)
    (hext : env.extend_dataset_builder_for_streaming b0 use_auth_token
      = .ok b)
    (hsp : b.info.splits = none)
    (hmk : env.mk_streaming_download_manager b.base_path
      (splitDiscoveryConfig (download_config.bind store.get?) use_auth_token)
      = .error err) :
    get_dataset_config_info env store path config_name data_files
      download_config download_mode revision use_auth_token config_kwargs
      = (store ++ [splitDiscoveryConfig (download_config.bind store.get?)
            use_auth_token],
         .error (.mk .splitsNotFoundError
           "The split names could not be parsed from the dataset config."
           (some err))) := by
  simp only [get_dataset_config_info]
  rw [hload]; dsimp only; rw [hext]; dsimp only; rw [hsp]; dsimp only
  rw [hmk]

theorem config_info_eq_of_gens_error (b0 b : Builder)
    (dlm : StreamingDownloadManager) (err : PyExc)
    (hload : env.load_dataset_builder path config_name data_files
      (download_config.bind store.get?) download_mode revision use_auth_token
      config_kwargs = .ok b0)
    (hext : env.extend_dataset_builder_for_streaming b0 use_auth_token
      = .ok b)
    (hsp : b.info.splits = none)
    (hmk : env.mk_streaming_download_manager b.base_path
      (splitDiscoveryConfig (download_config.bind store.get?) use_auth_token)
      = .ok dlm)
    (hsg : env.split_generators b dlm = .error err) :
    get_dataset_config_info env store path config_name data_files
      download_config download_mode revision use_auth_token config_kwargs
      = (store ++ [splitDiscoveryConfig (download_config.bind store.get?)
            use_auth_token],
         .error (.mk .splitsNotFoundError
           "The split names could not be parsed from the dataset config."
           (some err))) := by
  simp only [get_dataset_config_info]
  rw [hload]; dsimp only; rw [hext]; dsimp only; rw [hsp]; dsimp only
  rw [hmk]; dsimp only; rw [hsg]

theorem config_info_eq_of_gens_ok (b0 b : Builder)
    (dlm : StreamingDownloadManager) (gens : List SplitGenerator)
    (hload : env.load_dataset_builder path config_name data_files
      (download_config.bind store.get?) download_mode revision use_auth_token
      config_kwargs = .ok b0)
    (hext : env.extend_dataset_builder_for_streaming b0 use_auth_token
      = .ok b)
    (hsp : b.info.splits = none)
    (hmk : env.mk_streaming_download_manager b.base_path
      (splitDiscoveryConfig (download_config.bind store.get?) use_auth_token)
      = .ok dlm)
    (hsg : env.split_generators b dlm = .ok gens) :
    get_dataset_config_info env store path config_name data_files
      download_config download_mode revision use_auth_token config_kwargs
      = (store ++ [splitDiscoveryConfig (download_config.bind store.get?)
            use_auth_token],
         .ok { b.info with splits := some (pyDict (gens.map
           (fun split_generator => (split_generator.name,
             ({ name := split_generator.name,
                dataset_name := path } : SplitMeta))))) }) := by
  simp only [get_dataset_config_info]
  rw [hload]; dsimp only; rw [hext]; dsimp only; rw [hsp]; dsimp only
  rw [hmk]; dsimp only; rw [hsg]

end ConfigInfoCases

theorem config_info_fst_cases (env : Env) (store : DCStore) (path : String)
    (config_name : Option String) (data_files : Option DataFiles)
    (download_config : Option Nat) (download_mode : Option DownloadMode)
    (revision : Option Revision) (use_auth_token : Option AuthToken)
    (config_kwargs : ConfigKwargs) :
    (get_dataset_config_info env store path config_name data_files
      download_config download_mode revision use_auth_token config_kwargs).1
      = store ∨
    (get_dataset_config_info env store path config_name data_files
      download_config download_mode revision use_auth_token config_kwargs).1
      = store ++ [splitDiscoveryConfig (download_config.bind store.get?)
          use_auth_token] := by
  simp only [get_dataset_config_info]
  cases env.load_dataset_builder path config_name data_files
      (download_config.bind store.get?) download_mode revision use_auth_token
      config_kwargs with
  | error e => exact Or.inl rfl
  | ok b0 =>
    dsimp only
    cases env.extend_dataset_builder_for_streaming b0 use_auth_token with
    | error e => exact Or.inl rfl
    | ok b =>
      dsimp only
      cases b.info.splits with
      | some s => exact Or.inl rfl
      | none =>
        dsimp only
        cases env.mk_streaming_download_manager b.base_path
            (splitDiscoveryConfig (download_config.bind store.get?)
              use_auth_token) with
        | error e => exact Or.inr rfl
        | ok dlm =>
          dsimp only
          cases env.split_generators b dlm with
          | error e => exact Or.inr rfl
          | ok gens => exact Or.inr rfl

theorem config_info_fst_get?_eq (env : Env) (store : DCStore) (path : String)
    (config_name : Option String) (data_files : Option DataFiles)
    (download_config : Option Nat) (download_mode : Option DownloadMode)
    (revision : Option Revision) (use_auth_token : Option AuthToken)
    (config_kwargs : ConfigKwargs) (i : Nat) (hi : i < store.length) :
    ((get_dataset_config_info env store path config_name data_files
      download_config download_mode revision use_auth_token
      config_kwargs).1).get? i = store.get? i := by
  rcases config_info_fst_cases env store path config_name data_files
      download_config download_mode revision use_auth_token config_kwargs with
    h | h
  · rw [h]
  · rw [h]
    rw [List.get?_eq_getElem?, List.get?_eq_getElem?,
      List.getElem?_append_left hi]

theorem config_info_fst_length_le (env : Env) (store : DCStore) (path : String)
    (config_name : Option String) (data_files : Option DataFiles)
    (download_config : Option Nat) (download_mode : Option DownloadMode)
    (revision : Option Revision) (use_auth_token : Option AuthToken)
    (config_kwargs : ConfigKwargs) :
    store.length ≤ ((get_dataset_config_info env store path config_name
      data_files download_config download_mode revision use_auth_token
      config_kwargs).1).length := by
  rcases config_info_fst_cases env store path config_name data_files
      download_config download_mode revision use_auth_token config_kwargs with
    h | h
  · rw [h]
  · rw [h]; simp

theorem config_info_snd_congr (env : Env) (s1 s2 : DCStore)
    (dc1 dc2 : Option Nat) (path : String) (config_name : Option String)
    (data_files : Option DataFiles) (download_mode : Option DownloadMode)
    (revision : Option Revision) (use_auth_token : Option AuthToken)
    (config_kwargs : ConfigKwargs)
    (h : dc1.bind s1.get? = dc2.bind s2.get?) :
    (get_dataset_config_info env s1 path config_name data_files dc1
      download_mode revision use_auth_token config_kwargs).2
      = (get_dataset_config_info env s2 path config_name data_files dc2
      download_mode revision use_auth_token config_kwargs).2 := by
  simp only [get_dataset_config_info]
  rw [h]
  cases env.load_dataset_builder path config_name data_files
      (dc2.bind s2.get?) download_mode revision use_auth_token config_kwargs with
  | error e => rfl
  | ok b0 =>
    dsimp only
    cases env.extend_dataset_builder_for_streaming b0 use_auth_token with
    | error e => rfl
    | ok b =>
      dsimp only
      cases b.info.splits with
      | some s => rfl
      | none =>
        dsimp only
        cases env.mk_streaming_download_manager b.base_path
            (splitDiscoveryConfig (dc2.bind s2.get?) use_auth_token) with
        | error e => rfl
        | ok dlm =>
          dsimp only
          cases env.split_generators b dlm with
          | error e => rfl
          | ok gens => rfl

theorem config_info_fst_bind_eq (env : Env) (store : DCStore) (path : String)
    (config_name : Option String) (data_files : Option DataFiles)
    (download_config : Option Nat) (download_mode : Option DownloadMode)
    (revision : Option Revision) (use_auth_token : Option AuthToken)
    (config_kwargs : ConfigKwargs)
    (hval : ∀ r ∈ download_config, r < store.length) :
    download_config.bind ((get_dataset_config_info env store path config_name
      data_files download_config download_mode revision use_auth_token
      config_kwargs).1).get? = download_config.bind store.get? := by
  cases hdc : download_config with
  | none => rfl
  | some r =>
    subst hdc
    simp only [Option.some_bind]
    exact config_info_fst_get?_eq env store path config_name data_files
      (some r) download_mode revision use_auth_token config_kwargs r
      (hval r (Option.mem_def.mpr rfl))

theorem pyDictInsert_fresh {α : Type} (d : List (String × α)) (k : String)
    (v : α) (h : k ∉ pyDictKeys d) : pyDictInsert d k v = d ++ [(k, v)] := by
  unfold pyDictInsert
  rw [if_neg]
  intro hc
  apply h
  rcases List.any_eq_true.mp hc with ⟨p, hp, he⟩
  simp only [pyDictKeys]
  exact List.mem_map.mpr ⟨p, hp, beq_iff_eq.mp he⟩

theorem pyDictKeys_append {α : Type} (d d' : List (String × α)) :
    pyDictKeys (d ++ d') = pyDictKeys d ++ pyDictKeys d' := by
  simp [pyDictKeys]

theorem infos_go_error (env : Env) (path : String)
    (data_files : Option DataFiles) (download_config : Option Nat)
    (download_mode : Option DownloadMode) (revision : Option Revision)
    (use_auth_token : Option AuthToken) (config_kwargs : ConfigKwargs)
    (store : DCStore) (hval : ∀ r ∈ download_config, r < store.length)
    (names : List String) :
    ∀ (s : DCStore) (acc : List (String × DatasetInfo)) (e : PyExc),
      download_config.bind s.get? = download_config.bind store.get? →
      store.length ≤ s.length →
      (get_dataset_infos_go env path data_files download_config download_mode
        revision use_auth_token config_kwargs s names acc).2 = .error e →
      ∃ n ∈ names, (get_dataset_config_info env store path (some n) data_files
        download_config download_mode revision use_auth_token config_kwargs).2
        = .error e := by
  induction names with
  | nil =>
    intro s acc e _ _ h
    simp [get_dataset_infos_go] at h
  | cons n rest ih =>
    intro s acc e hbind hlen h
    simp only [get_dataset_infos_go] at h
    cases hci : get_dataset_config_info env s path (some n) data_files
        download_config download_mode revision use_auth_token config_kwargs with
    | mk s' r =>
      rw [hci] at h
      have hbind' : download_config.bind s'.get?
          = download_config.bind store.get? := by
        have h1 := config_info_fst_bind_eq env s path (some n) data_files
          download_config download_mode revision use_auth_token config_kwargs
          (fun r hr => lt_of_lt_of_le (hval r hr) hlen)
        rw [hci] at h1
        exact h1.trans hbind
      have hlen' : store.length ≤ s'.length := by
        have h2 := config_info_fst_length_le env s path (some n) data_files
          download_config download_mode revision use_auth_token config_kwargs
        rw [hci] at h2
        exact le_trans hlen h2
      cases r with
      | error e' =>
        dsimp only at h
        have he : e' = e := by simpa using h
        refine ⟨n, List.mem_cons_self _ _, ?_⟩
        have hcongr := config_info_snd_congr env store s download_config
          download_config path (some n) data_files download_mode revision
          use_auth_token config_kwargs hbind.symm
        rw [hcongr, hci, he]
      | ok info =>
        dsimp only at h
        rcases ih s' (pyDictInsert acc n info) e hbind' hlen' h with
          ⟨n', hn', hres⟩
        exact ⟨n', List.mem_cons_of_mem _ hn', hres⟩

theorem infos_go_first_error (env : Env) (path : String)
    (data_files : Option DataFiles) (download_config : Option Nat)
    (download_mode : Option DownloadMode) (revision : Option Revision)
    (use_auth_token : Option AuthToken) (config_kwargs : ConfigKwargs)
    (store : DCStore) (hval : ∀ r ∈ download_config, r < store.length)
    (n : String) (post : List String) (e : PyExc)
    (hfail : (get_dataset_config_info env store path (some n) data_files
      download_config download_mode revision use_auth_token config_kwargs).2
      = .error e)
    (pre : List String) :
    ∀ (s : DCStore) (acc : List (String × DatasetInfo)),
      download_config.bind s.get? = download_config.bind store.get? →
      store.length ≤ s.length →
      (∀ n' ∈ pre, ∃ i, (get_dataset_config_info env store path (some n')
        data_files download_config download_mode revision use_auth_token
        config_kwargs).2 = .ok i) →
      (get_dataset_infos_go env path data_files download_config download_mode
        revision use_auth_token config_kwargs s (pre ++ n :: post) acc).2
        = .error e := by
  induction pre with
  | nil =>
    intro s acc hbind hlen _
    simp only [List.nil_append, get_dataset_infos_go]
    cases hci : get_dataset_config_info env s path (some n) data_files
        download_config download_mode revision use_auth_token config_kwargs with
    | mk s' r =>
      have hcongr := config_info_snd_congr env store s download_config
        download_config path (some n) data_files download_mode revision
        use_auth_token config_kwargs hbind.symm
      rw [hci] at hcongr
      have hr : r = .error e := by simpa using hcongr.symm.trans hfail
      subst hr
      rfl
  | cons p pre' ih =>
    intro s acc hbind hlen hpre
    obtain ⟨i, hip⟩ := hpre p (List.mem_cons_self _ _)
    simp only [List.cons_append, get_dataset_infos_go]
    cases hci : get_dataset_config_info env s path (some p) data_files
        download_config download_mode revision use_auth_token config_kwargs with
    | mk s' r =>
      have hcongr := config_info_snd_congr env store s download_config
        download_config path (some p) data_files download_mode revision
        use_auth_token config_kwargs hbind.symm
      rw [hci] at hcongr
      have hr : r = .ok i := by simpa using hcongr.symm.trans hip
      subst hr
      have hbind' : download_config.bind s'.get?
          = download_config.bind store.get? := by
        have h1 := config_info_fst_bind_eq env s path (some p) data_files
          download_config download_mode revision use_auth_token config_kwargs
          (fun r hr => lt_of_lt_of_le (hval r hr) hlen)
        rw [hci] at h1
        exact h1.trans hbind
      have hlen' : store.length ≤ s'.length := by
        have h2 := config_info_fst_length_le env s path (some p) data_files
          download_config download_mode revision use_auth_token config_kwargs
        rw [hci] at h2
        exact le_trans hlen h2
      dsimp only
      exact ih s' (pyDictInsert acc p i) hbind' hlen'
        (fun n' hn' => hpre n' (List.mem_cons_of_mem _ hn'))

theorem infos_go_ok (env : Env) (path : String)
    (data_files : Option DataFiles) (download_config : Option Nat)
    (download_mode : Option DownloadMode) (revision : Option Revision)
    (use_auth_token : Option AuthToken) (config_kwargs : ConfigKwargs)
    (store : DCStore) (hval : ∀ r ∈ download_config, r < store.length)
    (names : List String) :
    ∀ (s : DCStore) (acc m : List (String × DatasetInfo)),
      download_config.bind s.get? = download_config.bind store.get? →
      store.length ≤ s.length →
      (pyDictKeys acc ++ names).Nodup →
      (get_dataset_infos_go env path data_files download_config download_mode
        revision use_auth_token config_kwargs s names acc).2 = .ok m →
      pyDictKeys m = pyDictKeys acc ++ names ∧
      ∀ p ∈ m, p ∈ acc ∨ (get_dataset_config_info env store path (some p.1)
        data_files download_config download_mode revision use_auth_token
        config_kwargs).2 = .ok p.2 := by
  induction names with
  | nil =>
    intro s acc m _ _ _ h
    have hm : acc = m := by simpa [get_dataset_infos_go] using h
    subst hm
    exact ⟨by simp, fun p hp => Or.inl hp⟩
  | cons n rest ih =>
    intro s acc m hbind hlen hnd h
    simp only [get_dataset_infos_go] at h
    cases hci : get_dataset_config_info env s path (some n) data_files
        download_config download_mode revision use_auth_token config_kwargs with
    | mk s' r =>
      rw [hci] at h
      have hcongr := config_info_snd_congr env store s download_config
        download_config path (some n) data_files download_mode revision
        use_auth_token config_kwargs hbind.symm
      rw [hci] at hcongr
      have hbind' : download_config.bind s'.get?
          = download_config.bind store.get? := by
        have h1 := config_info_fst_bind_eq env s path (some n) data_files
          download_config download_mode revision use_auth_token config_kwargs
          (fun r hr => lt_of_lt_of_le (hval r hr) hlen)
        rw [hci] at h1
        exact h1.trans hbind
      have hlen' : store.length ≤ s'.length := by
        have h2 := config_info_fst_length_le env s path (some n) data_files
          download_config download_mode revision use_auth_token config_kwargs
        rw [hci] at h2
        exact le_trans hlen h2
      cases r with
      | error e' => simp at h
      | ok info =>
        dsimp only at h
        have hn : n ∉ pyDictKeys acc := by
          intro hmem
          rcases List.nodup_append.mp hnd with ⟨_, _, hdis⟩
          exact hdis hmem (List.mem_cons_self _ _)
        rw [pyDictInsert_fresh acc n info hn] at h
        have hnd' : (pyDictKeys (acc ++ [(n, info)]) ++ rest).Nodup := by
          rw [pyDictKeys_append]
          simpa [pyDictKeys, List.append_assoc] using hnd
        rcases ih s' (acc ++ [(n, info)]) m hbind' hlen' hnd' h with
          ⟨hkeys, hvals⟩
        constructor
        · rw [hkeys, pyDictKeys_append]
          simp [pyDictKeys, List.append_assoc]
        · intro p hp
          rcases hvals p hp with hpa | hok
          · rcases List.mem_append.mp hpa with hpa' | hps
            · exact Or.inl hpa'
            · have hpn : p = (n, info) := by simpa using hps
              subst hpn
              exact Or.inr (by simpa using hcongr)
          · exact Or.inr hok

/-! ### Claim theorems -/

/-- C1: `get_dataset_config_info` never returns a `DatasetInfo` whose
`splits` field is unset: every successful result has `splits` set.
Moreover, when the builder loads and is adapted for streaming, either its
info already had splits and is returned unchanged, or (splits unset) the
function either computes the splits mapping from the streaming
split-generator enumeration and assigns it before returning, or the call
fails with a `SplitsNotFoundError`. -/
theorem c1_config_info_splits_never_unset (env : Env) (store : DCStore)
    (path : String) (config_name : Option String)
    (data_files : Option DataFiles) (download_config : Option Nat)
    (download_mode : Option DownloadMode) (revision : Option Revision)
    (use_auth_token : Option AuthToken) (config_kwargs : ConfigKwargs) :
    (∀ info, (get_dataset_config_info env store path config_name data_files
        download_config download_mode revision use_auth_token
        config_kwargs).2 = .ok info → info.splits.isSome = true) ∧
    (∀ b0 b s, env.load_dataset_builder path config_name data_files
        (download_config.bind store.get?) download_mode revision
        use_auth_token config_kwargs = .ok b0 →
      env.extend_dataset_builder_for_streaming b0 use_auth_token = .ok b →
      b.info.splits = some s →
      get_dataset_config_info env store path config_name data_files
        download_config download_mode revision use_auth_token config_kwargs
        = (store, .ok b.info)) ∧
    (∀ b0 b, env.load_dataset_builder path config_name data_files
        (download_config.bind store.get?) download_mode revision
        use_auth_token config_kwargs = .ok b0 →
      env.extend_dataset_builder_for_streaming b0 use_auth_token = .ok b →
      b.info.splits = none →
      (∃ dlm gens,
        env.mk_streaming_download_manager b.base_path
          (splitDiscoveryConfig (download_config.bind store.get?)
            use_auth_token) = .ok dlm ∧
        env.split_generators b dlm = .ok gens ∧
        (get_dataset_config_info env store path config_name data_files
          download_config download_mode revision use_auth_token
          config_kwargs).2 = .ok { b.info with splits := some (pyDict
            (gens.map (fun split_generator => (split_generator.name,
              ({ name := split_generator.name,
                 dataset_name := path } : SplitMeta))))) }) ∨
      (∃ e, (get_dataset_config_info env store path config_name data_files
          download_config download_mode revision use_auth_token
          config_kwargs).2 = .error (.mk .splitsNotFoundError
          "The split names could not be parsed from the dataset config."
          (some e)))) := by
  refine ⟨?_, ?_, ?_⟩
  · intro info h
    exact config_info_snd_ok_splits env store path config_name data_files
      download_config download_mode revision use_auth_token config_kwargs
      info h
  · intro b0 b s hload hext hsp
    exact config_info_eq_of_splits_present env store path config_name
      data_files download_config download_mode revision use_auth_token
      config_kwargs b0 b s hload hext hsp
  · intro b0 b hload hext hsp
    cases hmk : env.mk_streaming_download_manager b.base_path
        (splitDiscoveryConfig (download_config.bind store.get?)
          use_auth_token) with
    | error err =>
      refine Or.inr ⟨err, ?_⟩
      rw [config_info_eq_of_mk_dlm_error env store path config_name
        data_files download_config download_mode revision use_auth_token
        config_kwargs b0 b err hload hext hsp hmk]
    | ok dlm =>
      cases hsg : env.split_generators b dlm with
      | error err =>
        refine Or.inr ⟨err, ?_⟩
        rw [config_info_eq_of_gens_error env store path config_name
          data_files download_config download_mode revision use_auth_token
          config_kwargs b0 b dlm err hload hext hsp hmk hsg]
      | ok gens =>
        refine Or.inl ⟨dlm, gens, rfl, hsg, ?_⟩
        rw [config_info_eq_of_gens_ok env store path config_name data_files
          download_config download_mode revision use_auth_token config_kwargs
          b0 b dlm gens hload hext hsp hmk hsg]

theorem c1_witness :
    get_dataset_config_info envB [] "squad" none none none none none none []
      = ([], .ok builderWithSplits.info) ∧
    builderWithSplits.info.splits.isSome = true := by
  constructor
  · exact (c1_config_info_splits_never_unset envB [] "squad" none none none
      none none none []).2.1 builderWithSplits builderWithSplits
      [("train", ⟨"train", "squad"⟩)] rfl rfl rfl
  · exact (c1_config_info_splits_never_unset envB [] "squad" none none none
      none none none []).1 builderWithSplits.info rfl

/-- C2: in `get_dataset_config_info`, when `info.splits` is unset, a
failure of the split-discovery step (constructing the streaming download
manager or enumerating the split generators) is caught and re-raised as a
`SplitsNotFoundError` with the fixed message "The split names could not
be parsed from the dataset config." and the original exception chained as
its cause, while exceptions from builder loading or streaming adaptation
propagate unchanged. -/
theorem c2_split_discovery_error_translation (env : Env) (store : DCStore)
    (path : String) (config_name : Option String)
    (data_files : Option DataFiles) (download_config : Option Nat)
    (download_mode : Option DownloadMode) (revision : Option Revision)
    (use_auth_token : Option AuthToken) (config_kwargs : ConfigKwargs) :
    (∀ e, env.load_dataset_builder path config_name data_files
        (download_config.bind store.get?) download_mode revision
        use_auth_token config_kwargs = .error e →
      get_dataset_config_info env store path config_name data_files
        download_config download_mode revision use_auth_token config_kwargs
        = (store, .error e)) ∧
    (∀ b0 e, env.load_dataset_builder path config_name data_files
        (download_config.bind store.get?) download_mode revision
        use_auth_token config_kwargs = .ok b0 →
      env.extend_dataset_builder_for_streaming b0 use_auth_token
        = .error e →
      get_dataset_config_info env store path config_name data_files
        download_config download_mode revision use_auth_token config_kwargs
        = (store, .error e)) ∧
    (∀ b0 b e, env.load_dataset_builder path config_name data_files
        (download_config.bind store.get?) download_mode revision
        use_auth_token config_kwargs = .ok b0 →
      env.extend_dataset_builder_for_streaming b0 use_auth_token = .ok b →
      b.info.splits = none →
      env.mk_streaming_download_manager b.base_path
        (splitDiscoveryConfig (download_config.bind store.get?)
          use_auth_token) = .error e →
      (get_dataset_config_info env store path config_name data_files
        download_config download_mode revision use_auth_token
        config_kwargs).2 = .error (.mk .splitsNotFoundError
        "The split names could not be parsed from the dataset config."
        (some e))) ∧
    (∀ b0 b dlm e, env.load_dataset_builder path config_name data_files
        (download_config.bind store.get?) download_mode revision
        use_auth_token config_kwargs = .ok b0 →
      env.extend_dataset_builder_for_streaming b0 use_auth_token = .ok b →
      b.info.splits = none →
      env.mk_streaming_download_manager b.base_path
        (splitDiscoveryConfig (download_config.bind store.get?)
          use_auth_token) = .ok dlm →
      env.split_generators b dlm = .error e →
      (get_dataset_config_info env store path config_name data_files
        download_config download_mode revision use_auth_token
        config_kwargs).2 = .error (.mk .splitsNotFoundError
        "The split names could not be parsed from the dataset config."
        (some e))) := by
  refine ⟨?_, ?_, ?_, ?_⟩
  · intro e hload
    exact config_info_eq_of_load_error env store path config_name data_files
      download_config download_mode revision use_auth_token config_kwargs e
      hload
  · intro b0 e hload hext
    exact config_info_eq_of_extend_error env store path config_name
      data_files download_config download_mode revision use_auth_token
      config_kwargs b0 e hload hext
  · intro b0 b e hload hext hsp hmk
    rw [config_info_eq_of_mk_dlm_error env store path config_name data_files
      download_config download_mode revision use_auth_token config_kwargs
      b0 b e hload hext hsp hmk]
  · intro b0 b dlm e hload hext hsp hmk hsg
    rw [config_info_eq_of_gens_error env store path config_name data_files
      download_config download_mode revision use_auth_token config_kwargs
      b0 b dlm e hload hext hsp hmk hsg]

theorem c2_witness :
    get_dataset_config_info envLoadFail [] "squad" none none none none none
      none [] = ([], .error netErr) ∧
    (get_dataset_config_info envGensFail [] "squad" none none none none none
      none []).2 = .error (.mk .splitsNotFoundError
      "The split names could not be parsed from the dataset config."
      (some netErr)) := by
  constructor
  · exact (c2_split_discovery_error_translation envLoadFail [] "squad" none
      none none none none none []).1 netErr rfl
  · exact (c2_split_discovery_error_translation envGensFail [] "squad" none
      none none none none none []).2.2.2 builderNoSplits builderNoSplits
      ⟨"base", {}⟩ netErr rfl rfl rfl rfl rfl

/-- C9: `get_dataset_config_info` never mutates the caller's
`DownloadConfig`: the split-discovery overlay of `use_auth_token` is done
on a copy (a fresh store cell), so the object the caller passed in is
bit-for-bit unchanged in the resulting store, whether the call succeeds
or raises. -/
theorem c9_download_config_not_mutated (env : Env) (store : DCStore)
    (path : String) (config_name : Option String)
    (data_files : Option DataFiles) (download_mode : Option DownloadMode)
    (revision : Option Revision) (use_auth_token : Option AuthToken)
    (config_kwargs : ConfigKwargs) (r : Nat) (hr : r < store.length) :
    ((get_dataset_config_info env store path config_name data_files (some r)
      download_mode revision use_auth_token config_kwargs).1).get? r
      = store.get? r :=
  config_info_fst_get?_eq env store path config_name data_files (some r)
    download_mode revision use_auth_token config_kwargs r hr

theorem c9_witness :
    ((get_dataset_config_info envA [⟨some (.inl false), [("k", "v")]⟩] "squad"
      none none (some 0) none none (some (.inr "secret")) []).1).get? 0
      = [(⟨some (.inl false), [("k", "v")]⟩ : DownloadConfig)].get? 0 :=
  c9_download_config_not_mutated envA [⟨some (.inl false), [("k", "v")]⟩]
    "squad" none none none none (some (.inr "secret")) [] 0 (by decide)

/-- C10: `SplitsNotFoundError` is a subclass of `ValueError`, so any
exception of that class — in particular every split-discovery failure
raised by `get_dataset_config_info`, which `get_dataset_infos` and
`get_dataset_split_names` propagate unchanged — is caught by a handler
for `ValueError`. -/
theorem c10_splits_not_found_is_value_error :
    ExcClass.splitsNotFoundError.isSubclassOf .valueError = true ∧
    (∀ e : PyExc, e.cls = .splitsNotFoundError →
      catches .valueError e = true) ∧
    (∀ (env : Env) (store : DCStore) (path : String)
        (config_name : Option String) (data_files : Option DataFiles)
        (download_config : Option Nat) (download_mode : Option DownloadMode)
        (revision : Option Revision) (use_auth_token : Option AuthToken)
        (config_kwargs : ConfigKwargs) (b0 b : Builder) (e : PyExc),
      env.load_dataset_builder path config_name data_files
        (download_config.bind store.get?) download_mode revision
        use_auth_token config_kwargs = .ok b0 →
      env.extend_dataset_builder_for_streaming b0 use_auth_token = .ok b →
      b.info.splits = none →
      (env.mk_streaming_download_manager b.base_path
        (splitDiscoveryConfig (download_config.bind store.get?)
          use_auth_token) = .error e ∨
       (∃ dlm, env.mk_streaming_download_manager b.base_path
          (splitDiscoveryConfig (download_config.bind store.get?)
            use_auth_token) = .ok dlm ∧
        env.split_generators b dlm = .error e)) →
      ∃ err, (get_dataset_config_info env store path config_name data_files
          download_config download_mode revision use_auth_token
          config_kwargs).2 = .error err ∧
        err.cls = .splitsNotFoundError ∧
        catches .valueError err = true ∧ err.cause = some e) ∧
    (∀ (env : Env) (store : DCStore) (path : String)
        (config_name : Option String) (data_files : Option DataFiles)
        (download_config : Option Nat) (download_mode : Option DownloadMode)
        (revision : Option Revision) (use_auth_token : Option AuthToken)
        (config_kwargs : ConfigKwargs) (err : PyExc),
      (get_dataset_config_info env store path config_name data_files
        download_config download_mode revision use_auth_token
        config_kwargs).2 = .error err →
      (get_dataset_split_names env store path config_name data_files
        download_config download_mode revision use_auth_token
        config_kwargs).2 = .error err) := by
  refine ⟨rfl, ?_, ?_, ?_⟩
  · intro e he
    simp [catches, he, ExcClass.isSubclassOf]
  · intro env store path config_name data_files download_config download_mode
      revision use_auth_token config_kwargs b0 b e hload hext hsp hdisc
    rcases hdisc with hmk | ⟨dlm, hmk, hsg⟩
    · refine ⟨.mk .splitsNotFoundError
        "The split names could not be parsed from the dataset config."
        (some e), ?_, rfl, rfl, rfl⟩
      rw [config_info_eq_of_mk_dlm_error env store path config_name
        data_files download_config download_mode revision use_auth_token
        config_kwargs b0 b e hload hext hsp hmk]
    · refine ⟨.mk .splitsNotFoundError
        "The split names could not be parsed from the dataset config."
        (some e), ?_, rfl, rfl, rfl⟩
      rw [config_info_eq_of_gens_error env store path config_name data_files
        download_config download_mode revision use_auth_token config_kwargs
        b0 b dlm e hload hext hsp hmk hsg]
  · intro env store path config_name data_files download_config download_mode
      revision use_auth_token config_kwargs err herr
    simp only [get_dataset_split_names]
    cases hci : get_dataset_config_info env store path config_name data_files
        download_config download_mode revision use_auth_token config_kwargs with
    | mk s' r =>
      rw [hci] at herr
      have hr : r = .error err := by simpa using herr
      subst hr
      rfl

theorem c10_witness :
    catches .valueError (.mk .splitsNotFoundError
      "The split names could not be parsed from the dataset config."
      (some netErr)) = true :=
  c10_splits_not_found_is_value_error.2.1 _ rfl

/-- C3: `get_dataset_config_names` returns the builder class's declared
configuration names in declaration order, unsorted; when the builder
declares no configurations, it returns exactly the one-element list with
the module's `builder_kwargs["config_name"]`, or the literal string
"default" when that key is absent. -/
theorem c3_config_names_declaration_order (env : Env) (path : String)
    (revision : Option Revision) (download_config : Option DownloadConfig)
    (download_mode : Option DownloadMode) (force_local_path : Option String)
    (dynamic_modules_path : Option String) (data_files : Option DataFiles)
    (download_kwargs : DownloadKwargs) (dmod : DatasetModule)
    (bc : BuilderCls)
    (hfac : env.dataset_module_factory path revision download_config
      download_mode force_local_path dynamic_modules_path data_files
      download_kwargs = .ok dmod)
    (himp : env.import_main_class dmod.module_path = .ok bc) :
    (bc.builder_configs ≠ [] →
      get_dataset_config_names env path revision download_config
        download_mode force_local_path dynamic_modules_path data_files
        download_kwargs = .ok (pyDictKeys bc.builder_configs)) ∧
    (bc.builder_configs = [] →
      (∀ p, dmod.builder_kwargs.find? (fun q => q.1 == "config_name")
          = some p →
        get_dataset_config_names env path revision download_config
          download_mode force_local_path dynamic_modules_path data_files
          download_kwargs = .ok [p.2]) ∧
      (dmod.builder_kwargs.find? (fun q => q.1 == "config_name") = none →
        get_dataset_config_names env path revision download_config
          download_mode force_local_path dynamic_modules_path data_files
          download_kwargs = .ok ["default"])) := by
  have heq : get_dataset_config_names env path revision download_config
      download_mode force_local_path dynamic_modules_path data_files
      download_kwargs = .ok (if (pyDictKeys bc.builder_configs).isEmpty then
        [pyDictGet dmod.builder_kwargs "config_name" "default"]
      else pyDictKeys bc.builder_configs) := by
    simp only [get_dataset_config_names]
    rw [hfac]
    dsimp only
    rw [himp]
  refine ⟨?_, ?_⟩
  · intro hne
    have hf : (pyDictKeys bc.builder_configs).isEmpty = false := by
      cases hbc : bc.builder_configs with
      | nil => exact absurd hbc hne
      | cons a l => rfl
    rw [heq]
    simp [hf]
  · intro hnil
    have hkeys : pyDictKeys bc.builder_configs = [] := by rw [hnil]; rfl
    constructor
    · intro p hp
      rw [heq, hkeys]
      simp [pyDictGet, hp]
    · intro hp
      rw [heq, hkeys]
      simp [pyDictGet, hp]

theorem c3_witness :
    get_dataset_config_names envA "glue" none none none none none none []
      = .ok ["cola", "sst2"] ∧
    get_dataset_config_names envNoConfigs "squad" none none none none none
      none [] = .ok ["plain"] := by
  constructor
  · exact (c3_config_names_declaration_order envA "glue" none none none none
      none none [] ⟨"mod_path", [("config_name", "plain")]⟩
      ⟨[("cola", ⟨"cola"⟩), ("sst2", ⟨"sst2"⟩)]⟩ rfl rfl).1 (by simp)
  · exact ((c3_config_names_declaration_order envNoConfigs "squad" none none
      none none none none [] ⟨"mod_path", [("config_name", "plain")]⟩
      ⟨[]⟩ rfl rfl).2 rfl).1 ("config_name", "plain") rfl

/-- C6: on every input where `get_dataset_config_info` succeeds,
`get_dataset_split_names` with the same arguments returns exactly the
list of keys of the splits mapping of the returned `DatasetInfo`, in the
same order (and the same resulting store). -/
theorem c6_split_names_are_info_split_keys (env : Env) (store : DCStore)
    (path : String) (config_name : Option String)
    (data_files : Option DataFiles) (download_config : Option Nat)
    (download_mode : Option DownloadMode) (revision : Option Revision)
    (use_auth_token : Option AuthToken) (config_kwargs : ConfigKwargs)
    (s' : DCStore) (info : DatasetInfo)
    (h : get_dataset_config_info env store path config_name data_files
      download_config download_mode revision use_auth_token config_kwargs
      = (s', .ok info)) :
    get_dataset_split_names env store path config_name data_files
      download_config download_mode revision use_auth_token config_kwargs
      = (s', .ok (pyDictKeys (info.splits.getD []))) := by
  have hsome : info.splits.isSome = true :=
    config_info_snd_ok_splits env store path config_name data_files
      download_config download_mode revision use_auth_token config_kwargs
      info (by rw [h])
  obtain ⟨m, hm⟩ := Option.isSome_iff_exists.mp hsome
  simp only [get_dataset_split_names]
  rw [h]
  dsimp only
  rw [hm]
  rfl

theorem c6_witness :
    get_dataset_split_names envA [] "squad" none none none none none none []
      = ([⟨none, []⟩], .ok ["train", "validation", "test"]) :=
  c6_split_names_are_info_split_keys envA [] "squad" none none none none
    none none [] [⟨none, []⟩]
    ⟨some [("train", ⟨"train", "squad"⟩), ("validation",
      ⟨"validation", "squad"⟩), ("test", ⟨"test", "squad"⟩)], ""⟩ rfl

/-- C4: `get_dataset_infos` returns a mapping whose ordered key list
equals the configuration-name list that `get_dataset_config_names`
produces for equivalent parameters, and whose value at each configuration
name is exactly the `get_dataset_config_info` result for that name with
the same parameters. (`names.Nodup` holds by construction in Python,
where the names are keys of a dict.) -/
theorem c4_infos_keys_and_values (env : Env) (store : DCStore)
    (path : String) (data_files : Option DataFiles)
    (download_config : Option Nat) (download_mode : Option DownloadMode)
    (revision : Option Revision) (use_auth_token : Option AuthToken)
    (config_kwargs : ConfigKwargs) (names : List String)
    (m : List (String × DatasetInfo))
    (hval : ∀ r ∈ download_config, r < store.length)
    (hnames : get_dataset_config_names env path revision
      (download_config.bind store.get?) download_mode none none data_files []
      = .ok names)
    (hnd : names.Nodup)
    (hok : (get_dataset_infos env store path data_files download_config
      download_mode revision use_auth_token config_kwargs).2 = .ok m) :
    pyDictKeys m = names ∧
    ∀ p ∈ m, (get_dataset_config_info env store path (some p.1) data_files
      download_config download_mode revision use_auth_token
      config_kwargs).2 = .ok p.2 := by
  simp only [get_dataset_infos] at hok
  rw [hnames] at hok
  dsimp only at hok
  rcases infos_go_ok env path data_files download_config download_mode
      revision use_auth_token config_kwargs store hval names store [] m rfl
      le_rfl (by simpa [pyDictKeys] using hnd) hok with ⟨hkeys, hvals⟩
  refine ⟨by simpa [pyDictKeys] using hkeys, ?_⟩
  intro p hp
  rcases hvals p hp with hpa | hok'
  · exact absurd hpa (List.not_mem_nil p)
  · exact hok'

theorem c4_witness :
    pyDictKeys [("cola", (⟨some [("train", ⟨"train", "squad"⟩),
        ("validation", ⟨"validation", "squad"⟩), ("test", ⟨"test", "squad"⟩)],
        ""⟩ : DatasetInfo)),
      ("sst2", (⟨some [("train", ⟨"train", "squad"⟩),
        ("validation", ⟨"validation", "squad"⟩), ("test", ⟨"test", "squad"⟩)],
        ""⟩ : DatasetInfo))] = ["cola", "sst2"] :=
  (c4_infos_keys_and_values envA [] "squad" none none none none none []
    ["cola", "sst2"]
    [("cola", ⟨some [("train", ⟨"train", "squad"⟩),
        ("validation", ⟨"validation", "squad"⟩), ("test", ⟨"test", "squad"⟩)],
        ""⟩),
      ("sst2", ⟨some [("train", ⟨"train", "squad"⟩),
        ("validation", ⟨"validation", "squad"⟩), ("test", ⟨"test", "squad"⟩)],
        ""⟩)]
    (by simp) rfl (by decide) rfl).1

/-- C7: `get_dataset_infos` tolerates no partial failure: if
`get_dataset_config_info` fails for the first failing configuration name,
the whole call propagates that error and returns no partial mapping; and
every error it raises is exactly an error of one of its two callees —
`get_dataset_infos` itself catches nothing. -/
theorem c7_infos_no_partial_failure_tolerance (env : Env) (store : DCStore)
    (path : String) (data_files : Option DataFiles)
    (download_config : Option Nat) (download_mode : Option DownloadMode)
    (revision : Option Revision) (use_auth_token : Option AuthToken)
    (config_kwargs : ConfigKwargs)
    (hval : ∀ r ∈ download_config, r < store.length) :
    (∀ names pre n post e,
      get_dataset_config_names env path revision
        (download_config.bind store.get?) download_mode none none data_files
        [] = .ok names →
      names = pre ++ n :: post →
      (∀ n' ∈ pre, ∃ i, (get_dataset_config_info env store path (some n')
        data_files download_config download_mode revision use_auth_token
        config_kwargs).2 = .ok i) →
      (get_dataset_config_info env store path (some n) data_files
        download_config download_mode revision use_auth_token
        config_kwargs).2 = .error e →
      (get_dataset_infos env store path data_files download_config
        download_mode revision use_auth_token config_kwargs).2
        = .error e) ∧
    (∀ e, (get_dataset_infos env store path data_files download_config
        download_mode revision use_auth_token config_kwargs).2 = .error e →
      get_dataset_config_names env path revision
        (download_config.bind store.get?) download_mode none none data_files
        [] = .error e ∨
      ∃ names, get_dataset_config_names env path revision
        (download_config.bind store.get?) download_mode none none data_files
        [] = .ok names ∧
      ∃ n ∈ names, (get_dataset_config_info env store path (some n)
        data_files download_config download_mode revision use_auth_token
        config_kwargs).2 = .error e) := by
  constructor
  · intro names pre n post e hnames hsplit hpre hfail
    simp only [get_dataset_infos]
    rw [hnames]
    dsimp only
    rw [hsplit]
    exact infos_go_first_error env path data_files download_config
      download_mode revision use_auth_token config_kwargs store hval n post
      e hfail pre store [] rfl le_rfl hpre
  · intro e h
    simp only [get_dataset_infos] at h
    cases hcn : get_dataset_config_names env path revision
        (download_config.bind store.get?) download_mode none none data_files
        [] with
    | error e' =>
      rw [hcn] at h
      dsimp only at h
      have he : e' = e := by simpa using h
      subst he
      exact Or.inl rfl
    | ok names =>
      rw [hcn] at h
      dsimp only at h
      exact Or.inr ⟨names, rfl, infos_go_error env path data_files
        download_config download_mode revision use_auth_token config_kwargs
        store hval names store [] e rfl le_rfl h⟩

theorem c7_witness :
    (get_dataset_infos envLoadFail [] "squad" none none none none none
      []).2 = .error netErr :=
  (c7_infos_no_partial_failure_tolerance envLoadFail [] "squad" none none
    none none none [] (by simp)).1 ["cola", "sst2"] [] "cola" ["sst2"]
    netErr rfl rfl (fun n' h => absurd h (List.not_mem_nil n')) rfl

/-- C5: for every catalog response, `list_datasets` with
`with_community_datasets=False` returns only entries whose identifier
contains no "/" separator; with `with_details=False` it returns bare
identifier strings (each the id of a catalog record); with
`with_details=True` it returns the full catalog records; and
`list_metrics` behaves analogously over the metrics catalog. -/
theorem c5_catalog_listing (env : Env) :
    (∀ l, list_datasets env false false = .ids l →
      (∀ s ∈ l, s.data.contains '/' = false) ∧
      (∀ s ∈ l, ∃ d ∈ env.hub_list_datasets false, d.id = s)) ∧
    (∀ ds, list_datasets env false true = .records ds →
      (∀ d ∈ ds, d.id.data.contains '/' = false) ∧
      (∀ d ∈ ds, d ∈ env.hub_list_datasets true)) ∧
    (∀ wc, ∃ l, list_datasets env wc false = .ids l) ∧
    (∀ wc, ∃ ds, list_datasets env wc true = .records ds) ∧
    (∀ l, list_metrics env false false = .ids l →
      (∀ s ∈ l, s.data.contains '/' = false) ∧
      (∀ s ∈ l, ∃ d ∈ env.hub_list_metrics, d.id = s)) ∧
    (∀ ds, list_metrics env false true = .records ds →
      (∀ d ∈ ds, d.id.data.contains '/' = false) ∧
      (∀ d ∈ ds, d ∈ env.hub_list_metrics)) ∧
    (∀ wc, ∃ l, list_metrics env wc false = .ids l) ∧
    (∀ wc, ∃ ds, list_metrics env wc true = .records ds) := by
  refine ⟨?_, ?_, ?_, ?_, ?_, ?_, ?_, ?_⟩
  · intro l hl
    have hl' : ((env.hub_list_datasets false).filter
        (fun d => !(d.id.data.contains '/'))).map (fun d => d.id) = l := by
      have hdef : list_datasets env false false
          = .ids (((env.hub_list_datasets false).filter
            (fun d => !(d.id.data.contains '/'))).map (fun d => d.id)) := rfl
      rw [hdef] at hl
      simpa using hl
    subst hl'
    constructor
    · intro s hs
      rcases List.mem_map.mp hs with ⟨d, hd, hds⟩
      have hf := (List.mem_filter.mp hd).2
      rw [← hds]
      simpa using hf
    · intro s hs
      rcases List.mem_map.mp hs with ⟨d, hd, hds⟩
      exact ⟨d, (List.mem_filter.mp hd).1, hds⟩
  · intro ds hds
    have hds' : (env.hub_list_datasets true).filter
        (fun d => !(d.id.data.contains '/')) = ds := by
      have hdef : list_datasets env false true
          = .records ((env.hub_list_datasets true).filter
            (fun d => !(d.id.data.contains '/'))) := rfl
      rw [hdef] at hds
      simpa using hds
    subst hds'
    constructor
    · intro d hd
      have hf := (List.mem_filter.mp hd).2
      simpa using hf
    · intro d hd
      exact (List.mem_filter.mp hd).1
  · intro wc
    cases wc <;> exact ⟨_, rfl⟩
  · intro wc
    cases wc <;> exact ⟨_, rfl⟩
  · intro l hl
    have hl' : (env.hub_list_metrics.filter
        (fun d => !(d.id.data.contains '/'))).map (fun d => d.id) = l := by
      have hdef : list_metrics env false false
          = .ids ((env.hub_list_metrics.filter
            (fun d => !(d.id.data.contains '/'))).map (fun d => d.id)) := rfl
      rw [hdef] at hl
      simpa using hl
    subst hl'
    constructor
    · intro s hs
      rcases List.mem_map.mp hs with ⟨d, hd, hds⟩
      have hf := (List.mem_filter.mp hd).2
      rw [← hds]
      simpa using hf
    · intro s hs
      rcases List.mem_map.mp hs with ⟨d, hd, hds⟩
      exact ⟨d, (List.mem_filter.mp hd).1, hds⟩
  · intro ds hds
    have hds' : env.hub_list_metrics.filter
        (fun d => !(d.id.data.contains '/')) = ds := by
      have hdef : list_metrics env false true
          = .records (env.hub_list_metrics.filter
            (fun d => !(d.id.data.contains '/'))) := rfl
      rw [hdef] at hds
      simpa using hds
    subst hds'
    constructor
    · intro d hd
      have hf := (List.mem_filter.mp hd).2
      simpa using hf
    · intro d hd
      exact (List.mem_filter.mp hd).1
  · intro wc
    cases wc <;> exact ⟨_, rfl⟩
  · intro wc
    cases wc <;> exact ⟨_, rfl⟩

theorem c5_witness :
    ("squad" : String).data.contains '/' = false ∧
    list_datasets envA false false = .ids ["squad"] :=
  ⟨((c5_catalog_listing envA).1 ["squad"] rfl).1 "squad" (by simp), rfl⟩

/-- C8: `inspect_dataset` and `inspect_metric` return no value; besides
the factory's own side effect their only observable effect is printing
one informational message naming the inspection path and the module
path; a factory error propagates unchanged and then nothing is
printed. -/
theorem c8_inspect_effects (env : Env) (path local_path : String)
    (download_config : Option DownloadConfig)
    (download_kwargs : DownloadKwargs) :
    (∀ e, env.dataset_module_factory path none download_config none
        (some local_path) none none download_kwargs = .error e →
      inspect_dataset env path local_path download_config download_kwargs
        = (.error e, [])) ∧
    (∀ dmod mp, env.dataset_module_factory path none download_config none
        (some local_path) none none download_kwargs = .ok dmod →
      dmod.module_path = mp →
      inspect_dataset env path local_path download_config download_kwargs
        = (.ok (),
          [s!"The processing script for dataset {path} can be inspected at {local_path}. The main class is in {mp}. You can modify this processing script and use it with `datasets.load_dataset({local_path})`."])) ∧
    (∀ e, env.metric_module_factory path download_config (some local_path)
        download_kwargs = .error e →
      inspect_metric env path local_path download_config download_kwargs
        = (.error e, [])) ∧
    (∀ mmod mp, env.metric_module_factory path download_config
        (some local_path) download_kwargs = .ok mmod →
      mmod.module_path = mp →
      inspect_metric env path local_path download_config download_kwargs
        = (.ok (),
          [s!"The processing scripts for metric {path} can be inspected at {local_path}. The main class is in {mp}. You can modify this processing scripts and use it with `datasets.load_metric({local_path})`."])) := by
  refine ⟨?_, ?_, ?_, ?_⟩
  · intro e hfac
    simp only [inspect_dataset]
    rw [hfac]
  · intro dmod mp hfac hmp
    subst hmp
    simp only [inspect_dataset]
    rw [hfac]
  · intro e hfac
    simp only [inspect_metric]
    rw [hfac]
  · intro mmod mp hfac hmp
    subst hmp
    simp only [inspect_metric]
    rw [hfac]

theorem c8_witness :
    inspect_dataset envFactoryFail "squad" "loc" none [] = (.error netErr, [])
    ∧ inspect_dataset envA "squad" "loc" none []
      = (.ok (),
        ["The processing script for dataset squad can be inspected at loc. The main class is in mod_path. You can modify this processing script and use it with `datasets.load_dataset(loc)`."])
    ∧ inspect_metric envFactoryFail "squad" "loc" none []
      = (.error netErr, [])
    ∧ inspect_metric envA "squad" "loc" none []
      = (.ok (),
        ["The processing scripts for metric squad can be inspected at loc. The main class is in metric_mod_path. You can modify this processing scripts and use it with `datasets.load_metric(loc)`."]) := by
  refine ⟨?_, ?_, ?_, ?_⟩
  · exact (c8_inspect_effects envFactoryFail "squad" "loc" none []).1 netErr
      rfl
  · exact (c8_inspect_effects envA "squad" "loc" none []).2.1
      ⟨"mod_path", [("config_name", "plain")]⟩ "mod_path" rfl rfl
  · exact (c8_inspect_effects envFactoryFail "squad" "loc" none []).2.2.1
      netErr rfl
  · exact (c8_inspect_effects envA "squad" "loc" none []).2.2.2
      ⟨"metric_mod_path", []⟩ "metric_mod_path" rfl rfl
